import Mathlib

/-!
Verification of the canvas wave-grid animation engine of this repository.

Two engine variants are embedded, faithfully to the JavaScript sources:

* `WaveGrid` — the angle-noise variant (the script with `xGap = 12`,
  `yGap = 18`, wobble-modulated velocity injection, tension `0.03`,
  friction `0.82`, clamp at `maxCursorMoveY = 20`).
* `Ported` — the cue++ port (first half of `wave-grid.js`: centred padded
  grid, force injection with dynamic radius, integration factor `2`,
  clamp at `100`, position rounding to one decimal place).

Machine floating point numbers are modelled as exact real numbers, and the
external simplex-noise sampler is a function parameter, as it lives in a
separate script.  Event handlers become pure functions on the pointer
state; the per-frame `update` body becomes a pure function of the
configuration, pointer state, sampled noise, audio energy and clock.
-/

noncomputable section

namespace WaveGrid

/-- Engine configuration: the `config` constant object of the script. -/
structure Config where
  xGap : ℝ
  yGap : ℝ
  xScale : ℝ
  yScale : ℝ
  speedX : ℝ
  speedY : ℝ
  angleGain : ℝ
  waveAmpX : ℝ
  waveAmpY : ℝ
  influenceRadius : ℝ
  cursorStrength : ℝ
  wobbleFreq : ℝ
  cursorXScale : ℝ
  maxCursorMoveY : ℝ
  tension : ℝ
  friction : ℝ
  audioReactivityEnabled : Bool
  audioAmplitudeMultiplier : ℝ

/-- The configuration values of the script. -/
def config : Config where
  xGap := 12
  yGap := 18
  xScale := 0.002
  yScale := 0.0015
  speedX := 0.03
  speedY := 0.015
  angleGain := 6
  waveAmpX := 0
  waveAmpY := 12
  influenceRadius := 150
  cursorStrength := 1.2
  wobbleFreq := 0.015
  cursorXScale := 0.3
  maxCursorMoveY := 20
  tension := 0.03
  friction := 0.82
  audioReactivityEnabled := true
  audioAmplitudeMultiplier := 4.0

/-- A grid point: immutable base position, animated current position,
cursor spring offset `(cx, cy)` and cursor spring velocity `(cvx, cvy)`. -/
structure Point where
  baseX : ℝ
  baseY : ℝ
  currentX : ℝ
  currentY : ℝ
  cx : ℝ
  cy : ℝ
  cvx : ℝ
  cvy : ℝ

/-- Pointer tracking state. -/
structure Pointer where
  x : ℝ
  y : ℝ
  velocityX : ℝ
  velocityY : ℝ
  isActive : Bool

/-- The grid: flat row-major point list with its dimensions. -/
structure Grid where
  points : List Point
  rows : ℤ
  cols : ℤ

/-- Componentwise clamp, written as in the script:
`Math.max(lo, Math.min(hi, v))`. -/
def clamp (lo hi v : ℝ) : ℝ := max lo (min hi v)

/-- Spring force and damping applied to one velocity component:
`cv += (-c) * tension; cv *= friction`. -/
def springVel (tension friction offset vel : ℝ) : ℝ :=
  (vel + -offset * tension) * friction

/-- Integration and clamp applied to one offset component:
`c += cv` followed by the componentwise clamp. -/
def springOff (maxMove offset vel : ℝ) : ℝ :=
  clamp (-maxMove) maxMove (offset + vel)

/-- Base-position distance from a point to the pointer, as computed by the
cursor pass: `Math.sqrt(dx * dx + dy * dy)` with `dx = x - pointer.x`,
`dy = y - pointer.y`. -/
def cursorDist (ptr : Pointer) (x y : ℝ) : ℝ :=
  Real.sqrt ((x - ptr.x) * (x - ptr.x) + (y - ptr.y) * (y - ptr.y))

/-- The impulse factor of the cursor pass:
`falloff * wobble * cursorStrength`, with quadratic falloff
`1 - normalizedDist^2` and wobble `0.6 + 0.4 * cos(distance * wobbleFreq)`. -/
def impulse (cfg : Config) (ptr : Pointer) (x y : ℝ) : ℝ :=
  let distance := cursorDist ptr x y
  let normalizedDist := distance / cfg.influenceRadius
  (1 - normalizedDist * normalizedDist) *
    (0.6 + 0.4 * Real.cos (distance * cfg.wobbleFreq)) * cfg.cursorStrength

/-- The cursor velocity-injection pass for one point (the block guarded by
`pointer.isActive` in `update`): the stored pointer velocity scaled by the
impulse factor is added to both spring velocity components whenever the
base-position distance to the pointer is strictly between `0` and the
influence radius. -/
def cursorInject (cfg : Config) (ptr : Pointer) (x y cvx cvy : ℝ) : ℝ × ℝ :=
  if ptr.isActive then
    let distance := cursorDist ptr x y
    if distance < cfg.influenceRadius ∧ distance > 0 then
      (cvx + ptr.velocityX * impulse cfg ptr x y, cvy + ptr.velocityY * impulse cfg ptr x y)
    else
      (cvx, cvy)
  else
    (cvx, cvy)

/-- Body of the per-point loop of `update`: noise angle field, wave
displacement, cursor velocity injection, spring, friction, integration,
clamp, and the final position.  The 2D noise sampler is a parameter, and
`audioEnergy` is the value polled from the audio subsystem (used only when
audio reactivity is enabled). -/
def pointUpdate (cfg : Config) (noise2D : ℝ → ℝ → ℝ) (ptr : Pointer)
    (time audioEnergy : ℝ) (p : Point) : Point :=
  let energy := if cfg.audioReactivityEnabled then audioEnergy else 0
  let audioResponse := energy ^ (1.5 : ℝ)
  let currentWaveAmpY := cfg.waveAmpY * (1.0 + audioResponse * cfg.audioAmplitudeMultiplier)
  let x := p.baseX
  let y := p.baseY
  let t := cfg.angleGain *
    noise2D (x * cfg.xScale + time * cfg.speedX) (y * cfg.yScale + time * cfg.speedY)
  let waveX := Real.cos t * cfg.waveAmpX
  let waveY := Real.sin t * currentWaveAmpY
  let inj := cursorInject cfg ptr x y p.cvx p.cvy
  let cvx := springVel cfg.tension cfg.friction p.cx inj.1
  let cvy := springVel cfg.tension cfg.friction p.cy inj.2
  let cx := springOff cfg.maxCursorMoveY p.cx cvx
  let cy := springOff cfg.maxCursorMoveY p.cy cvy
  { p with
    cvx := cvx
    cvy := cvy
    cx := cx
    cy := cy
    currentX := x + waveX + cx * cfg.cursorXScale
    currentY := y + waveY + cy }

/-- Grid construction (`initGrid`): `cols = ceil(width / xGap) + 1`,
`rows = ceil(height / yGap) + 1`, base positions on the lattice with
origin `(0, 0)`, current positions equal to base, spring state zero. -/
def initGrid (width height : ℝ) (cfg : Config) : Grid :=
  let cols : ℤ := ⌈width / cfg.xGap⌉ + 1
  let rows : ℤ := ⌈height / cfg.yGap⌉ + 1
  { cols := cols
    rows := rows
    points := (List.range rows.toNat).flatMap fun (row : ℕ) =>
      (List.range cols.toNat).map fun (col : ℕ) =>
        { baseX := (col : ℝ) * cfg.xGap
          baseY := (row : ℝ) * cfg.yGap
          currentX := (col : ℝ) * cfg.xGap
          currentY := (row : ℝ) * cfg.yGap
          cx := 0
          cy := 0
          cvx := 0
          cvy := 0 } }

/-- One frame of `update`: advance the clock by `deltaTime * 0.001` and run
the per-point pass over the whole grid; returns the new clock and grid. -/
def update (cfg : Config) (noise2D : ℝ → ℝ → ℝ) (ptr : Pointer)
    (audioEnergy deltaTime time : ℝ) (g : Grid) : ℝ × Grid :=
  let time := time + deltaTime * 0.001
  (time, { g with points := g.points.map (pointUpdate cfg noise2D ptr time audioEnergy) })

/-- The `pointermove` handler: store the new position, set the velocity to
the position delta since the previous event, and mark the pointer active. -/
def pointerMove (newX newY : ℝ) (ptr : Pointer) : Pointer :=
  { x := newX
    y := newY
    velocityX := newX - ptr.x
    velocityY := newY - ptr.y
    isActive := true }

/-- The `pointerleave` handler: only clears the active flag. -/
def pointerLeave (ptr : Pointer) : Pointer := { ptr with isActive := false }

/-- The `pointerenter` handler: only sets the active flag. -/
def pointerEnter (ptr : Pointer) : Pointer := { ptr with isActive := true }

/-- A theme: background and line color. -/
structure Theme where
  background : String
  lineColor : String

/-- The OWN entries of the `themes` object literal of the script, as a
partial map from names: exactly these three names resolve to a usable
theme record (this is what `draw` needs from `themes[currentTheme]`). -/
def themes (name : String) : Option Theme :=
  if name = "default" then
    some { background := "#0a0a0a", lineColor := "rgba(100, 100, 100, 0.25)" }
  else if name = "classicfm" then
    some { background := "#1a0000", lineColor := "rgba(255, 215, 0, 0.4)" }
  else if name = "reprezent" then
    some { background := "#0a0a0a", lineColor := "rgba(255, 255, 255, 0.25)" }
  else
    none

/-- The member names a plain JavaScript object literal inherits from
`Object.prototype` (ECMA-262, including the Annex B accessors): a bracket
lookup `themes[name]` at one of these names returns the inherited function
or object rather than `undefined`. -/
def objectProtoNames : List String :=
  ["constructor", "hasOwnProperty", "isPrototypeOf", "propertyIsEnumerable",
   "toLocaleString", "toString", "valueOf", "__defineGetter__",
   "__defineSetter__", "__lookupGetter__", "__lookupSetter__", "__proto__"]

/-- Truthiness of the JavaScript bracket lookup `themes[themeName]` used
by the guard of `setTheme`: the three own entries are truthy theme
records, and the members inherited from `Object.prototype` are truthy
functions or objects; every other name yields `undefined`, which is
falsy. -/
def themesLookupTruthy (themeName : String) : Bool :=
  (themes themeName).isSome || objectProtoNames.contains themeName

/-- `setTheme`: the current theme becomes the requested name whenever the
bracket lookup `themes[themeName]` is truthy (own entry OR inherited
`Object.prototype` member), and `default` otherwise. -/
def setTheme (themeName : String) : String :=
  if themesLookupTruthy themeName then themeName else "default"

/-- A pointer state that is inactive (used for the settling scenarios). -/
def inactivePointer : Pointer :=
  { x := 0, y := 0, velocityX := 0, velocityY := 0, isActive := false }

/-- The constant-zero noise stub of the test scenarios. -/
def zeroNoise : ℝ → ℝ → ℝ := fun _ _ => 0

/-- The configuration of the spring-convergence scenario:
`tension = 0.06`, `friction = 0.9` (product `0.054`), other values as in
the script. -/
def cfg06 : Config := { config with tension := 0.06, friction := 0.9 }

/-- Iterating the per-frame update with the pointer inactive and the noise
displacement forced to zero, at tension `0.06` and friction `0.9`. -/
def springIter (n : ℕ) (p : Point) : Point :=
  (pointUpdate cfg06 zeroNoise inactivePointer 0 0)^[n] p

/-- Quadratic Lyapunov function for the spring recurrence at tension
`0.06`, friction `0.9`: cross terms vanish for weight `473 / 27`. -/
def lyap (p : Point) : ℝ :=
  p.cx ^ 2 + 473 / 27 * p.cvx ^ 2 + p.cy ^ 2 + 473 / 27 * p.cvy ^ 2

/-- The grid-sizing and scenario-A configuration: spacing `10` on both
axes, every other value as in the script. -/
def cfgSpacing10 : Config := { config with xGap := 10, yGap := 10 }

/-- A pointer state for the radius counterexample: resting at `(0, 149)`
with stored velocity `(0, 5)`, active. -/
def ptrFar : Pointer :=
  { x := 0, y := 149, velocityX := 0, velocityY := 5, isActive := true }

/-- A point state for the radius counterexample: base `(0, 0)`, current
position `(0, -32)` (base plus wave offset `-12` plus clamped spring
offset `-20`), zero spring velocity. -/
def ptFar : Point :=
  { baseX := 0, baseY := 0, currentX := 0, currentY := -32
    cx := 0, cy := -20, cvx := 0, cvy := 0 }

end WaveGrid

namespace Ported

/-- Configuration of the cue++ port (first half of `wave-grid.js`). -/
structure Config where
  xGap : ℝ
  yGap : ℝ
  noiseScaleX : ℝ
  noiseScaleY : ℝ
  noiseAmplitude : ℝ
  speedX : ℝ
  speedY : ℝ
  waveAmpX : ℝ
  waveAmpY : ℝ
  cursorBaseRadius : ℝ
  cursorForceMultiplier : ℝ
  maxCursorMove : ℝ
  tension : ℝ
  friction : ℝ
  integrationFactor : ℝ
  cursorSmoothingAlpha : ℝ
  velocitySmoothingAlpha : ℝ
  maxVelocity : ℝ
  roundingPrecision : ℝ
  audioReactivityEnabled : Bool

/-- The cue++ configuration values. -/
def config : Config where
  xGap := 40
  yGap := 40
  noiseScaleX := 0.002
  noiseScaleY := 0.0015
  noiseAmplitude := 12
  speedX := 0.0125
  speedY := 0.005
  waveAmpX := 32
  waveAmpY := 16
  cursorBaseRadius := 175
  cursorForceMultiplier := 0.00065
  maxCursorMove := 100
  tension := 0.005
  friction := 0.925
  integrationFactor := 2
  cursorSmoothingAlpha := 0.1
  velocitySmoothingAlpha := 0.1
  maxVelocity := 100
  roundingPrecision := 10
  audioReactivityEnabled := false

/-- Cursor tracking state of the port (raw, smoothed, velocity, angle). -/
structure Cursor where
  x : ℝ
  y : ℝ
  lx : ℝ
  ly : ℝ
  sx : ℝ
  sy : ℝ
  v : ℝ
  vs : ℝ
  a : ℝ
  isActive : Bool

/-- A grid point of the port; it additionally stores the wave displacement
of the current frame. -/
structure Point where
  baseX : ℝ
  baseY : ℝ
  currentX : ℝ
  currentY : ℝ
  waveX : ℝ
  waveY : ℝ
  cx : ℝ
  cy : ℝ
  cvx : ℝ
  cvy : ℝ

/-- Grid construction of the port: padded dimensions
`cols = ceil((width + 200) / xGap)`, `rows = ceil((height + 30) / yGap)`,
lattice centred on the viewport. -/
def initGrid (width height : ℝ) (cfg : Config) : List Point :=
  let cols : ℤ := ⌈(width + 200) / cfg.xGap⌉
  let rows : ℤ := ⌈(height + 30) / cfg.yGap⌉
  let offsetX := (width - cfg.xGap * cols) / 2
  let offsetY := (height - cfg.yGap * rows) / 2
  (List.range rows.toNat).flatMap fun (row : ℕ) =>
    (List.range cols.toNat).map fun (col : ℕ) =>
      { baseX := offsetX + (col : ℝ) * cfg.xGap
        baseY := offsetY + (row : ℝ) * cfg.yGap
        currentX := 0
        currentY := 0
        waveX := 0
        waveY := 0
        cx := 0
        cy := 0
        cvx := 0
        cvy := 0 }

/-- Body of the per-point loop of the ported `update`: cue++ wave formula,
directional force injection with dynamic radius, spring, friction,
integration with factor `integrationFactor`, clamp, and the final position
rounded to `1 / roundingPrecision`. -/
def pointUpdate (cfg : Config) (noise2D : ℝ → ℝ → ℝ) (c : Cursor)
    (time : ℝ) (p : Point) : Point :=
  let x := p.baseX
  let y := p.baseY
  let noiseValue :=
    noise2D ((x + time * cfg.speedX) * cfg.noiseScaleX) ((y + time * cfg.speedY) * cfg.noiseScaleY)
  let t := cfg.noiseAmplitude * noiseValue
  let waveX := Real.cos t * cfg.waveAmpX
  let waveY := Real.sin t * cfg.waveAmpY
  let inj :=
    if c.isActive then
      let dx := x - c.sx
      let dy := y - c.sy
      let distance := Real.sqrt (dx ^ 2 + dy ^ 2)
      let cursorRadius := max cfg.cursorBaseRadius c.vs
      if distance < cursorRadius ∧ distance > 0 then
        let directionFactor := Real.cos (0.001 * distance) * (1 - distance / cursorRadius)
        (p.cvx + Real.cos c.a * directionFactor * cursorRadius * c.vs * cfg.cursorForceMultiplier,
         p.cvy + Real.sin c.a * directionFactor * cursorRadius * c.vs * cfg.cursorForceMultiplier)
      else
        (p.cvx, p.cvy)
    else
      (p.cvx, p.cvy)
  let cvx := (inj.1 + (0 - p.cx) * cfg.tension) * cfg.friction
  let cvy := (inj.2 + (0 - p.cy) * cfg.tension) * cfg.friction
  let cx := min cfg.maxCursorMove (max (-cfg.maxCursorMove) (p.cx + cfg.integrationFactor * cvx))
  let cy := min cfg.maxCursorMove (max (-cfg.maxCursorMove) (p.cy + cfg.integrationFactor * cvy))
  let finalX := p.baseX + waveX + cx
  let finalY := p.baseY + waveY + cy
  { p with
    waveX := waveX
    waveY := waveY
    cvx := cvx
    cvy := cvy
    cx := cx
    cy := cy
    currentX := (round (cfg.roundingPrecision * finalX) : ℤ) / cfg.roundingPrecision
    currentY := (round (cfg.roundingPrecision * finalY) : ℤ) / cfg.roundingPrecision }

end Ported

namespace WaveGrid

theorem cursorInject_inactive (cfg : Config) (ptr : Pointer) (x y cvx cvy : ℝ)
    (h : ptr.isActive = false) : cursorInject cfg ptr x y cvx cvy = (cvx, cvy) := by
  simp [cursorInject, h]

theorem pointUpdate_cx (cfg : Config) (noise2D : ℝ → ℝ → ℝ) (ptr : Pointer)
    (time audioEnergy : ℝ) (p : Point) :
    (pointUpdate cfg noise2D ptr time audioEnergy p).cx =
      springOff cfg.maxCursorMoveY p.cx
        (springVel cfg.tension cfg.friction p.cx
          (cursorInject cfg ptr p.baseX p.baseY p.cvx p.cvy).1) := rfl

theorem pointUpdate_cy (cfg : Config) (noise2D : ℝ → ℝ → ℝ) (ptr : Pointer)
    (time audioEnergy : ℝ) (p : Point) :
    (pointUpdate cfg noise2D ptr time audioEnergy p).cy =
      springOff cfg.maxCursorMoveY p.cy
        (springVel cfg.tension cfg.friction p.cy
          (cursorInject cfg ptr p.baseX p.baseY p.cvx p.cvy).2) := rfl

theorem pointUpdate_cvx (cfg : Config) (noise2D : ℝ → ℝ → ℝ) (ptr : Pointer)
    (time audioEnergy : ℝ) (p : Point) :
    (pointUpdate cfg noise2D ptr time audioEnergy p).cvx =
      springVel cfg.tension cfg.friction p.cx
        (cursorInject cfg ptr p.baseX p.baseY p.cvx p.cvy).1 := rfl

theorem pointUpdate_cvy (cfg : Config) (noise2D : ℝ → ℝ → ℝ) (ptr : Pointer)
    (time audioEnergy : ℝ) (p : Point) :
    (pointUpdate cfg noise2D ptr time audioEnergy p).cvy =
      springVel cfg.tension cfg.friction p.cy
        (cursorInject cfg ptr p.baseX p.baseY p.cvx p.cvy).2 := rfl

theorem abs_springOff_le (m x v : ℝ) (hm : 0 ≤ m) : |springOff m x v| ≤ m := by
  rw [springOff, clamp, abs_le]
  constructor
  · exact le_max_left _ _
  · exact max_le (by linarith) (min_le_left _ _)

/-- C2: for arbitrary prior state and arbitrary (arbitrarily large) pointer
velocities, after an update every spring offset component lies within
`[-maxCursorMoveY, maxCursorMoveY]` on both axes, because the componentwise
clamp is the last step of the integration.  Since the prior state is
arbitrary, this bounds every state reachable by any sequence of updates. -/
theorem pointUpdate_clamp_invariant (cfg : Config) (noise2D : ℝ → ℝ → ℝ)
    (ptr : Pointer) (time audioEnergy : ℝ) (p : Point)
    (hm : 0 ≤ cfg.maxCursorMoveY) :
    |(pointUpdate cfg noise2D ptr time audioEnergy p).cx| ≤ cfg.maxCursorMoveY ∧
    |(pointUpdate cfg noise2D ptr time audioEnergy p).cy| ≤ cfg.maxCursorMoveY := by
  rw [pointUpdate_cx, pointUpdate_cy]
  exact ⟨abs_springOff_le _ _ _ hm, abs_springOff_le _ _ _ hm⟩

/-- C2 witness: the clamp invariant instantiated at the configuration of the
script, a huge injected pointer velocity and a large prior state. -/
theorem pointUpdate_clamp_invariant_witness :
    |(pointUpdate config zeroNoise ⟨0, 0, 100000, -100000, true⟩ 0 0
        ⟨0, 0, 0, 0, 30, -40, 2500, -2500⟩).cx| ≤ config.maxCursorMoveY :=
  (pointUpdate_clamp_invariant config zeroNoise ⟨0, 0, 100000, -100000, true⟩ 0 0
    ⟨0, 0, 0, 0, 30, -40, 2500, -2500⟩ (by norm_num [config])).1

/-- C3: with the pointer inactive, one update applies exactly, in order,
the spring force `cv += -c * tension`, the damping `cv *= friction`, the
integration `c += cv` and the componentwise clamp, so the new velocity is
`friction * (v - tension * c)` and the new offset is
`clamp(friction * (v - tension * c) + c)`, on both axes. -/
theorem pointUpdate_spring_formula (cfg : Config) (noise2D : ℝ → ℝ → ℝ)
    (ptr : Pointer) (time audioEnergy : ℝ) (p : Point)
    (h : ptr.isActive = false) :
    (pointUpdate cfg noise2D ptr time audioEnergy p).cvx =
        cfg.friction * (p.cvx - cfg.tension * p.cx) ∧
    (pointUpdate cfg noise2D ptr time audioEnergy p).cx =
        clamp (-cfg.maxCursorMoveY) cfg.maxCursorMoveY
          (cfg.friction * (p.cvx - cfg.tension * p.cx) + p.cx) ∧
    (pointUpdate cfg noise2D ptr time audioEnergy p).cvy =
        cfg.friction * (p.cvy - cfg.tension * p.cy) ∧
    (pointUpdate cfg noise2D ptr time audioEnergy p).cy =
        clamp (-cfg.maxCursorMoveY) cfg.maxCursorMoveY
          (cfg.friction * (p.cvy - cfg.tension * p.cy) + p.cy) := by
  rw [pointUpdate_cx, pointUpdate_cy, pointUpdate_cvx, pointUpdate_cvy,
    cursorInject_inactive cfg ptr _ _ _ _ h]
  refine ⟨by rw [springVel]; ring, ?_, by rw [springVel]; ring, ?_⟩ <;>
    rw [springOff, springVel] <;> ring_nf

/-- C3 witness: the one-step spring formula at the configuration of the
script and a concrete point state. -/
theorem pointUpdate_spring_formula_witness :
    (pointUpdate config zeroNoise inactivePointer 0 0
        ⟨1, 2, 1, 2, 3, -4, 5, 6⟩).cvx =
      config.friction * ((5 : ℝ) - config.tension * 3) := by
  have h := (pointUpdate_spring_formula config zeroNoise inactivePointer 0 0
    ⟨1, 2, 1, 2, 3, -4, 5, 6⟩ rfl).1
  simpa using h

/-- C8 counterexample: the unknown name `toString` does NOT fall back to
the default theme: the bracket lookup `themes["toString"]` finds the
truthy function inherited from `Object.prototype`, so the current theme
becomes `toString`, a name with no entry in the theme table. -/
theorem setTheme_proto_counterexample :
    setTheme "toString" = "toString" ∧ themes "toString" = none ∧
    "toString" ≠ "default" := by
  refine ⟨?_, ?_, by simp⟩
  · simp [setTheme, themesLookupTruthy, themes, objectProtoNames]
  · simp [themes]

/-- C8 amended: `setTheme` never raises; a known theme name becomes the
current theme, and an unknown name falls back to the (resolvable) default
theme UNLESS it is the name of a member inherited from `Object.prototype`
(`toString`, `constructor`, `hasOwnProperty`, `__proto__`, ...): such a
name passes the truthiness guard and is kept verbatim as the current
theme, even though it does not resolve in the theme table. -/
theorem setTheme_fallback (name : String) :
    ((themes name).isSome = true → setTheme name = name) ∧
    ((themes name).isSome = false → objectProtoNames.contains name = false →
      setTheme name = "default" ∧ (themes (setTheme name)).isSome = true) ∧
    ((themes name).isSome = false → objectProtoNames.contains name = true →
      setTheme name = name) := by
  refine ⟨?_, ?_, ?_⟩
  · intro h
    have ht : themesLookupTruthy name = true := by
      rw [themesLookupTruthy, h]; rfl
    rw [setTheme, ht]; rfl
  · intro h1 h2
    have ht : themesLookupTruthy name = false := by
      rw [themesLookupTruthy, h1, h2]; rfl
    have hs : setTheme name = "default" := by
      rw [setTheme, ht]; rfl
    exact ⟨hs, by rw [hs]; simp [themes]⟩
  · intro h1 h2
    have ht : themesLookupTruthy name = true := by
      rw [themesLookupTruthy, h1, h2]; rfl
    rw [setTheme, ht]; rfl

/-- C8 amended, witness: a known name sticks; an ordinary unknown name
falls back to the resolvable default; the unknown name `toString` is kept
verbatim. -/
theorem setTheme_fallback_witness :
    setTheme "classicfm" = "classicfm" ∧
    (setTheme "jazzfm" = "default" ∧ (themes (setTheme "jazzfm")).isSome = true) ∧
    setTheme "toString" = "toString" :=
  ⟨(setTheme_fallback "classicfm").1 (by simp [themes]),
   (setTheme_fallback "jazzfm").2.1 (by simp [themes]) (by simp [objectProtoNames]),
   (setTheme_fallback "toString").2.2 (by simp [themes]) (by simp [objectProtoNames])⟩

end WaveGrid

namespace Ported

theorem round_tenth (z : ℝ) :
    |((round ((10 : ℝ) * z) : ℤ) : ℝ) / 10 - z| ≤ 1 / 20 := by
  have h := abs_sub_round ((10 : ℝ) * z)
  rw [abs_sub_comm] at h
  have hz : ((round ((10 : ℝ) * z) : ℤ) : ℝ) / 10 - z =
      (((round ((10 : ℝ) * z) : ℤ) : ℝ) - 10 * z) / 10 := by ring
  rw [hz, abs_div, abs_of_pos (by norm_num : (0 : ℝ) < 10)]
  rw [div_le_div_iff₀ (by norm_num) (by norm_num)]
  linarith

/-- C10: in the ported engine variant, after every update the stored
current position of every point is an exact multiple of `1/10` on each
axis, and differs from the exact value
`base + wave offset + clamped spring offset` by at most `1/20 = 0.05`. -/
theorem pointUpdate_rounding (noise2D : ℝ → ℝ → ℝ) (c : Cursor)
    (time : ℝ) (p : Point) :
    (∃ mx : ℤ, (pointUpdate config noise2D c time p).currentX = (mx : ℝ) / 10) ∧
    (∃ my : ℤ, (pointUpdate config noise2D c time p).currentY = (my : ℝ) / 10) ∧
    |(pointUpdate config noise2D c time p).currentX -
        ((pointUpdate config noise2D c time p).baseX +
          (pointUpdate config noise2D c time p).waveX +
          (pointUpdate config noise2D c time p).cx)| ≤ 1 / 20 ∧
    |(pointUpdate config noise2D c time p).currentY -
        ((pointUpdate config noise2D c time p).baseY +
          (pointUpdate config noise2D c time p).waveY +
          (pointUpdate config noise2D c time p).cy)| ≤ 1 / 20 := by
  have hx : (pointUpdate config noise2D c time p).currentX =
      ((round ((10 : ℝ) * ((pointUpdate config noise2D c time p).baseX +
        (pointUpdate config noise2D c time p).waveX +
        (pointUpdate config noise2D c time p).cx)) : ℤ) : ℝ) / 10 := rfl
  have hy : (pointUpdate config noise2D c time p).currentY =
      ((round ((10 : ℝ) * ((pointUpdate config noise2D c time p).baseY +
        (pointUpdate config noise2D c time p).waveY +
        (pointUpdate config noise2D c time p).cy)) : ℤ) : ℝ) / 10 := rfl
  refine ⟨⟨_, hx⟩, ⟨_, hy⟩, ?_, ?_⟩
  · rw [hx]; exact round_tenth _
  · rw [hy]; exact round_tenth _

end Ported

namespace WaveGrid

theorem cursorInject_radius_counterexample_aux :
    cursorDist ptrFar ptFar.baseX ptFar.baseY = 149 := by
  rw [cursorDist, show (ptFar.baseX - ptrFar.x) * (ptFar.baseX - ptrFar.x) +
      (ptFar.baseY - ptrFar.y) * (ptFar.baseY - ptrFar.y) = (149 : ℝ) ^ 2 by
    norm_num [ptFar, ptrFar]]
  exact Real.sqrt_sq (by norm_num)

/-- C4 counterexample: the point `ptFar` has current position `(0, -32)`,
at distance `181 ≥ 150 = influenceRadius` from the pointer, yet the cursor
pass injects a nonzero amount into its spring velocity, because the code
measures the distance from the base position `(0, 0)`, which is `149 < 150`
away from the pointer. -/
theorem cursorInject_current_distance_counterexample :
    config.influenceRadius ≤
      Real.sqrt ((ptFar.currentX - ptrFar.x) ^ 2 + (ptFar.currentY - ptrFar.y) ^ 2) ∧
    (cursorInject config ptrFar ptFar.baseX ptFar.baseY ptFar.cvx ptFar.cvy).2 ≠ ptFar.cvy := by
  constructor
  · rw [show ((ptFar.currentX - ptrFar.x) ^ 2 + (ptFar.currentY - ptrFar.y) ^ 2 : ℝ) =
        (181 : ℝ) ^ 2 by norm_num [ptFar, ptrFar],
      Real.sqrt_sq (by norm_num : (0 : ℝ) ≤ 181)]
    norm_num [config]
  · have himp : 0 < impulse config ptrFar ptFar.baseX ptFar.baseY := by
      rw [impulse, cursorInject_radius_counterexample_aux]
      have hcos := Real.neg_one_le_cos (149 * config.wobbleFreq)
      norm_num [config] at hcos ⊢
      nlinarith [hcos]
    simp only [cursorInject, cursorInject_radius_counterexample_aux,
      show ptrFar.isActive = true from rfl, if_true]
    rw [if_pos (by norm_num [config] : (149 : ℝ) < config.influenceRadius ∧ (149 : ℝ) > 0)]
    have h5 : ptrFar.velocityY = 5 := rfl
    have h0 : ptFar.cvy = 0 := rfl
    rw [h5, h0]
    simp only [zero_add]
    positivity

/-- C4 amended: the code gates the injection on the distance from the
BASE position of the point (not its current position); whenever that
base distance is at least the influence radius, or exactly zero, the
cursor pass injects nothing into the spring velocity. -/
theorem cursorInject_radius_bound (cfg : Config) (ptr : Pointer) (x y cvx cvy : ℝ)
    (h : cfg.influenceRadius ≤ cursorDist ptr x y ∨ cursorDist ptr x y = 0) :
    cursorInject cfg ptr x y cvx cvy = (cvx, cvy) := by
  simp only [cursorInject]
  split
  · rw [if_neg]
    rintro ⟨h1, h2⟩
    rcases h with h3 | h3
    · exact absurd h1 (not_lt.mpr h3)
    · rw [h3] at h2; exact lt_irrefl 0 h2
  · rfl

/-- C4 amended, witness: a point 200 px from the pointer (base distance)
receives zero injection. -/
theorem cursorInject_radius_bound_witness :
    cursorInject config ⟨0, 0, 3, 4, true⟩ 200 0 1 2 = (1, 2) := by
  apply cursorInject_radius_bound
  left
  rw [show cursorDist ⟨0, 0, 3, 4, true⟩ 200 0 = 200 by
    rw [cursorDist, show ((200 : ℝ) - (⟨0, 0, 3, 4, true⟩ : Pointer).x) *
        ((200 : ℝ) - (⟨0, 0, 3, 4, true⟩ : Pointer).x) +
        ((0 : ℝ) - (⟨0, 0, 3, 4, true⟩ : Pointer).y) *
        ((0 : ℝ) - (⟨0, 0, 3, 4, true⟩ : Pointer).y) = (200 : ℝ) ^ 2 by norm_num]
    exact Real.sqrt_sq (by norm_num)]
  norm_num [config]

/-- C9: `pointerleave` followed by `pointerenter` preserves the stored
pointer position and velocity and only toggles the active flag; and for a
point whose base distance lies strictly between `0` and the influence
radius, the cursor pass after re-entry injects exactly the stored
(pre-leave) velocity scaled by the impulse factor, with no intervening
move event required. -/
theorem pointer_reenter_reinjects (cfg : Config) (ptr : Pointer) (x y cvx cvy : ℝ)
    (hd : 0 < cursorDist ptr x y) (hr : cursorDist ptr x y < cfg.influenceRadius) :
    (pointerEnter (pointerLeave ptr)).velocityX = ptr.velocityX ∧
    (pointerEnter (pointerLeave ptr)).velocityY = ptr.velocityY ∧
    (pointerEnter (pointerLeave ptr)).x = ptr.x ∧
    (pointerEnter (pointerLeave ptr)).y = ptr.y ∧
    (pointerEnter (pointerLeave ptr)).isActive = true ∧
    cursorInject cfg (pointerEnter (pointerLeave ptr)) x y cvx cvy =
      (cvx + ptr.velocityX * impulse cfg ptr x y,
       cvy + ptr.velocityY * impulse cfg ptr x y) := by
  refine ⟨rfl, rfl, rfl, rfl, rfl, ?_⟩
  simp only [cursorInject,
    show (pointerEnter (pointerLeave ptr)).isActive = true from rfl, if_true]
  rw [if_pos (⟨hr, hd⟩ :
    cursorDist (pointerEnter (pointerLeave ptr)) x y < cfg.influenceRadius ∧
    cursorDist (pointerEnter (pointerLeave ptr)) x y > 0)]
  rfl

/-- C9 witness: pointer last seen at the origin with stored velocity
`(5, 0)`, currently inactive; after leave and re-enter, a point 50 px away
receives the stored velocity times the impulse factor. -/
theorem pointer_reenter_reinjects_witness :
    cursorInject config (pointerEnter (pointerLeave ⟨0, 0, 5, 0, false⟩)) 50 0 1 2 =
      (1 + 5 * impulse config ⟨0, 0, 5, 0, false⟩ 50 0,
       2 + 0 * impulse config ⟨0, 0, 5, 0, false⟩ 50 0) := by
  have hd : cursorDist ⟨0, 0, 5, 0, false⟩ 50 0 = 50 := by
    rw [cursorDist, show ((50 : ℝ) - (⟨0, 0, 5, 0, false⟩ : Pointer).x) *
        ((50 : ℝ) - (⟨0, 0, 5, 0, false⟩ : Pointer).x) +
        ((0 : ℝ) - (⟨0, 0, 5, 0, false⟩ : Pointer).y) *
        ((0 : ℝ) - (⟨0, 0, 5, 0, false⟩ : Pointer).y) = (50 : ℝ) ^ 2 by norm_num]
    exact Real.sqrt_sq (by norm_num)
  exact (pointer_reenter_reinjects config ⟨0, 0, 5, 0, false⟩ 50 0 1 2
    (by rw [hd]; norm_num) (by rw [hd]; norm_num [config])).2.2.2.2.2

theorem pointUpdate_inactive_cx (cfg : Config) (noise2D : ℝ → ℝ → ℝ)
    (time audioEnergy : ℝ) (p : Point) :
    (pointUpdate cfg noise2D inactivePointer time audioEnergy p).cx =
      springOff cfg.maxCursorMoveY p.cx
        (springVel cfg.tension cfg.friction p.cx p.cvx) := rfl

theorem pointUpdate_inactive_cy (cfg : Config) (noise2D : ℝ → ℝ → ℝ)
    (time audioEnergy : ℝ) (p : Point) :
    (pointUpdate cfg noise2D inactivePointer time audioEnergy p).cy =
      springOff cfg.maxCursorMoveY p.cy
        (springVel cfg.tension cfg.friction p.cy p.cvy) := rfl

theorem pointUpdate_inactive_cvx (cfg : Config) (noise2D : ℝ → ℝ → ℝ)
    (time audioEnergy : ℝ) (p : Point) :
    (pointUpdate cfg noise2D inactivePointer time audioEnergy p).cvx =
      springVel cfg.tension cfg.friction p.cx p.cvx := rfl

theorem pointUpdate_inactive_cvy (cfg : Config) (noise2D : ℝ → ℝ → ℝ)
    (time audioEnergy : ℝ) (p : Point) :
    (pointUpdate cfg noise2D inactivePointer time audioEnergy p).cvy =
      springVel cfg.tension cfg.friction p.cy p.cvy := rfl

theorem pointUpdate_zero_spring (cfg : Config) (time audioEnergy : ℝ) (p : Point)
    (hx : cfg.waveAmpX = 0) (hm : 0 ≤ cfg.maxCursorMoveY)
    (h1 : p.cx = 0) (h2 : p.cy = 0) (h3 : p.cvx = 0) (h4 : p.cvy = 0) :
    (pointUpdate cfg zeroNoise inactivePointer time audioEnergy p).currentX = p.baseX ∧
    (pointUpdate cfg zeroNoise inactivePointer time audioEnergy p).currentY = p.baseY := by
  have hmin : min cfg.maxCursorMoveY (0 : ℝ) = 0 := min_eq_right hm
  have hmax : max (-cfg.maxCursorMoveY) (0 : ℝ) = 0 := max_eq_right (by linarith)
  have hinj : cursorInject cfg inactivePointer p.baseX p.baseY 0 0 =
      ((0 : ℝ), (0 : ℝ)) := cursorInject_inactive _ _ _ _ _ _ rfl
  constructor <;>
    simp [pointUpdate, zeroNoise, hinj, springVel, springOff, clamp,
      h1, h2, h3, h4, hx, hmin, hmax, Real.cos_zero, Real.sin_zero]

/-- C5: scenario A.  Building the grid at `20 x 10` with spacing `10` gives
exactly 3 columns and 2 rows with origin `(0, 0)`; with the noise stubbed
to zero and the pointer inactive, after one `update` every current
position equals the base position exactly (for every frame delta, clock
value and audio energy). -/
theorem scenarioA_current_eq_base (deltaTime time audioEnergy : ℝ) :
    (initGrid 20 10 cfgSpacing10).cols = 3 ∧
    (initGrid 20 10 cfgSpacing10).rows = 2 ∧
    ((update cfgSpacing10 zeroNoise inactivePointer audioEnergy deltaTime time
        (initGrid 20 10 cfgSpacing10)).2.points).Forall
      (fun q => q.currentX = q.baseX ∧ q.currentY = q.baseY) := by
  refine ⟨?_, ?_, ?_⟩
  · show (⌈(20 : ℝ) / cfgSpacing10.xGap⌉ + 1 : ℤ) = 3
    rw [show cfgSpacing10.xGap = (10 : ℝ) from rfl,
      show (20 : ℝ) / 10 = ((2 : ℤ) : ℝ) by norm_num, Int.ceil_intCast]
    norm_num
  · show (⌈(10 : ℝ) / cfgSpacing10.yGap⌉ + 1 : ℤ) = 2
    rw [show cfgSpacing10.yGap = (10 : ℝ) from rfl,
      show (10 : ℝ) / 10 = ((1 : ℤ) : ℝ) by norm_num, Int.ceil_intCast]
    norm_num
  · rw [List.forall_iff_forall_mem]
    intro q hq
    simp only [update] at hq
    rw [List.mem_map] at hq
    obtain ⟨p, hp, rfl⟩ := hq
    have hp0 : p.cx = 0 ∧ p.cy = 0 ∧ p.cvx = 0 ∧ p.cvy = 0 := by
      simp only [initGrid] at hp
      rw [List.mem_flatMap] at hp
      obtain ⟨row, _, hp⟩ := hp
      rw [List.mem_map] at hp
      obtain ⟨col, _, rfl⟩ := hp
      exact ⟨rfl, rfl, rfl, rfl⟩
    exact pointUpdate_zero_spring cfgSpacing10 _ _ p rfl
      (by norm_num [cfgSpacing10, config]) hp0.1 hp0.2.1 hp0.2.2.1 hp0.2.2.2

theorem initGrid_points_length (w h : ℝ) (cfg : Config) :
    (initGrid w h cfg).points.length =
      (⌈h / cfg.yGap⌉ + 1).toNat * (⌈w / cfg.xGap⌉ + 1).toNat := by
  simp only [initGrid]
  rw [List.length_flatMap]
  simp only [Function.comp_def, List.length_map, List.length_range]
  rw [List.map_const', List.sum_replicate, List.length_range, smul_eq_mul]

theorem ceil_hundred_tenths : (⌈(100 : ℝ) / 10⌉ : ℤ) = 10 := by
  rw [show (100 : ℝ) / 10 = ((10 : ℤ) : ℝ) by norm_num, Int.ceil_intCast]

/-- C6 counterexample: with width = height = 100 and spacing 10 on both
axes, the code produces 11 columns and 11 rows, not `ceil(100/10) = 10`:
`initGrid` always adds one extra column and row of bleed padding. -/
theorem initGrid_pad_counterexample :
    (initGrid 100 100 cfgSpacing10).cols ≠ ⌈(100 : ℝ) / 10⌉ ∧
    (initGrid 100 100 cfgSpacing10).cols = 11 ∧
    (initGrid 100 100 cfgSpacing10).rows = 11 ∧
    (⌈(100 : ℝ) / 10⌉ : ℤ) = 10 := by
  have hcols : (initGrid 100 100 cfgSpacing10).cols = 11 := by
    show (⌈(100 : ℝ) / cfgSpacing10.xGap⌉ + 1 : ℤ) = 11
    rw [show cfgSpacing10.xGap = (10 : ℝ) from rfl, ceil_hundred_tenths]
    norm_num
  have hrows : (initGrid 100 100 cfgSpacing10).rows = 11 := by
    show (⌈(100 : ℝ) / cfgSpacing10.yGap⌉ + 1 : ℤ) = 11
    rw [show cfgSpacing10.yGap = (10 : ℝ) from rfl, ceil_hundred_tenths]
    norm_num
  exact ⟨by rw [hcols, ceil_hundred_tenths]; norm_num, hcols, hrows, ceil_hundred_tenths⟩

/-- C6 amended: building at width = height = 100 with spacing 10 yields
`ceil(100/10) + 1 = 11` columns and rows (the code pads one extra column
and row for edge bleed), hence `121` points; and rebuilding with identical
dimensions and configuration yields the identical grid, since the build is
a pure function of its inputs. -/
theorem initGrid_sizing :
    (initGrid 100 100 cfgSpacing10).cols = ⌈(100 : ℝ) / 10⌉ + 1 ∧
    (initGrid 100 100 cfgSpacing10).rows = ⌈(100 : ℝ) / 10⌉ + 1 ∧
    (initGrid 100 100 cfgSpacing10).points.length = 121 ∧
    initGrid 100 100 cfgSpacing10 = initGrid 100 100 cfgSpacing10 := by
  refine ⟨rfl, rfl, ?_, rfl⟩
  rw [initGrid_points_length]
  show (⌈(100 : ℝ) / 10⌉ + 1).toNat * (⌈(100 : ℝ) / 10⌉ + 1).toNat = 121
  rw [ceil_hundred_tenths]
  decide

theorem springIter_zero (p : Point) : springIter 0 p = p := rfl

theorem springIter_succ (n : ℕ) (p : Point) :
    springIter (n + 1) p =
      pointUpdate cfg06 zeroNoise inactivePointer 0 0 (springIter n p) :=
  Function.iterate_succ_apply' _ _ _

theorem clamp_sq_le (m z : ℝ) (hm : 0 ≤ m) : clamp (-m) m z ^ 2 ≤ z ^ 2 := by
  rw [clamp]
  rcases le_total z (-m) with h | h
  · rw [min_eq_right (by linarith : z ≤ m), max_eq_left h]
    nlinarith
  · rcases le_total z m with h2 | h2
    · rw [min_eq_right h2, max_eq_right h]
    · rw [min_eq_left h2, max_eq_right (by linarith : -m ≤ m)]
      nlinarith

theorem axis_lyap (x v : ℝ) :
    springOff 20 x (springVel 0.06 0.9 x v) ^ 2 +
        473 / 27 * springVel 0.06 0.9 x v ^ 2 ≤
      473 / 500 * (x ^ 2 + 473 / 27 * v ^ 2) := by
  have h1 : springOff 20 x (springVel 0.06 0.9 x v) ^ 2 ≤
      (x + springVel 0.06 0.9 x v) ^ 2 := by
    rw [springOff]
    exact clamp_sq_le 20 _ (by norm_num)
  have h2 : (x + springVel 0.06 0.9 x v) ^ 2 +
      473 / 27 * springVel 0.06 0.9 x v ^ 2 ≤
      473 / 500 * (x ^ 2 + 473 / 27 * v ^ 2) := by
    rw [springVel]
    nlinarith [sq_nonneg v]
  linarith

theorem lyap_nonneg (p : Point) : 0 ≤ lyap p := by
  rw [lyap]
  positivity

theorem lyap_step (p : Point) :
    lyap (pointUpdate cfg06 zeroNoise inactivePointer 0 0 p) ≤ 473 / 500 * lyap p := by
  have hx := axis_lyap p.cx p.cvx
  have hy := axis_lyap p.cy p.cvy
  rw [lyap, lyap, pointUpdate_inactive_cx, pointUpdate_inactive_cy,
    pointUpdate_inactive_cvx, pointUpdate_inactive_cvy,
    show cfg06.maxCursorMoveY = 20 from rfl,
    show cfg06.tension = 0.06 from rfl,
    show cfg06.friction = 0.9 from rfl]
  linarith

theorem lyap_springIter_le (p : Point) (n : ℕ) :
    lyap (springIter n p) ≤ (473 / 500) ^ n * lyap p := by
  induction n with
  | zero => simp [springIter]
  | succ k ih =>
      rw [springIter_succ]
      calc lyap (pointUpdate cfg06 zeroNoise inactivePointer 0 0 (springIter k p)) ≤
            473 / 500 * lyap (springIter k p) := lyap_step _
        _ ≤ 473 / 500 * ((473 / 500) ^ k * lyap p) :=
            mul_le_mul_of_nonneg_left ih (by norm_num)
        _ = (473 / 500) ^ (k + 1) * lyap p := by ring

/-- C1: with the pointer inactive and the noise displacement forced to
zero, at tension `0.06` and friction `0.9` (product `0.054`, inside the
stability bound), from every state with a nonzero spring offset the
iterated per-frame update drives the spring offset magnitude below every
positive epsilon, and it stays below it for all later frames.  The proof
contracts the quadratic Lyapunov function `lyap` by the factor `473/500`
every frame. -/
theorem spring_convergence (p : Point) (_hp : (p.cx, p.cy) ≠ (0, 0)) (ε : ℝ)
    (hε : 0 < ε) :
    ∃ N : ℕ, ∀ n : ℕ, N ≤ n →
      Real.sqrt ((springIter n p).cx ^ 2 + (springIter n p).cy ^ 2) < ε := by
  have hL : 0 ≤ lyap p := lyap_nonneg p
  obtain ⟨N, hN⟩ := exists_pow_lt_of_lt_one
    (div_pos (pow_pos hε 2) (by linarith : (0 : ℝ) < lyap p + 1))
    (by norm_num : (473 / 500 : ℝ) < 1)
  refine ⟨N, fun n hn => ?_⟩
  rw [Real.sqrt_lt' hε]
  have h1 := lyap_springIter_le p n
  have h2 : ((473 : ℝ) / 500) ^ n ≤ (473 / 500) ^ N :=
    pow_le_pow_of_le_one (by norm_num) (by norm_num) hn
  have h3 : ((473 : ℝ) / 500) ^ N * lyap p < ε ^ 2 := by
    have h4 : ((473 : ℝ) / 500) ^ N * lyap p ≤ ε ^ 2 / (lyap p + 1) * lyap p :=
      mul_le_mul_of_nonneg_right (le_of_lt hN) hL
    have h5 : ε ^ 2 / (lyap p + 1) * lyap p < ε ^ 2 := by
      rw [div_mul_eq_mul_div, div_lt_iff₀ (by linarith)]
      nlinarith [pow_pos hε 2]
    linarith
  have h6 : (springIter n p).cx ^ 2 + (springIter n p).cy ^ 2 ≤
      lyap (springIter n p) := by
    rw [lyap]
    nlinarith [sq_nonneg (springIter n p).cvx, sq_nonneg (springIter n p).cvy]
  have h7 : ((473 : ℝ) / 500) ^ n * lyap p ≤ (473 / 500) ^ N * lyap p :=
    mul_le_mul_of_nonneg_right h2 hL
  linarith

/-- C1 witness: from the initial offset `(5, -3)` the spring offset
magnitude eventually stays below `1/10`. -/
theorem spring_convergence_witness :
    ∃ N : ℕ, ∀ n : ℕ, N ≤ n →
      Real.sqrt ((springIter n ⟨0, 0, 0, 0, 5, -3, 0, 0⟩).cx ^ 2 +
        (springIter n ⟨0, 0, 0, 0, 5, -3, 0, 0⟩).cy ^ 2) < 1 / 10 :=
  spring_convergence ⟨0, 0, 0, 0, 5, -3, 0, 0⟩ (by norm_num [Prod.ext_iff])
    (1 / 10) (by norm_num)

end WaveGrid

end
